import Mathlib

/-!
Verification of the gita-multilingual core components:
the Daily Quote Selector (src/hooks/useDailyQuote.ts),
the localized-field lookup (src/components/GitaExperience.tsx, fetchLocalized),
and the Ambient Drone Synthesizer (src/hooks/useTanpuraDrone.ts).

The JavaScript/TypeScript source is shallowly embedded: pure helpers become
Lean functions, the browser environment (window presence, localStorage, the
audio context) becomes explicit state passing, and fallible operations return
Except. Machine reals for audio parameters are modeled as rationals; the
literals appearing in the source (146.83, 0.08, 0.1, -0.08, 0.3) are exactly
representable.
-/

namespace Gita

/-! ## Proleptic Gregorian calendar arithmetic

The JavaScript engine computes `new Date(y, m, d)` and `Date.toISOString`
over the proleptic Gregorian calendar.  `daysFromCivil`/`civilFromDays`
convert between a calendar date and the count of days since the Unix epoch
(1970-01-01), following the standard civil-calendar algorithm that the
ECMAScript date specification is equivalent to. -/

/-- Days since 1970-01-01 of the civil date `(y, m, d)` with `m` 1-based. -/
def daysFromCivil (y m d : Int) : Int :=
  let y2 : Int := if m ≤ 2 then y - 1 else y
  let era : Int := Int.fdiv y2 400
  let yoe : Int := y2 - era * 400
  let mp : Int := Int.fmod (m + 9) 12
  let doy : Int := (153 * mp + 2) / 5 + d - 1
  let doe : Int := yoe * 365 + yoe / 4 - yoe / 100 + doy
  era * 146097 + doe - 719468

/-- Civil date `(y, m, d)` of a count of days since 1970-01-01. -/
def civilFromDays (z0 : Int) : Int × Int × Int :=
  let z : Int := z0 + 719468
  let era : Int := Int.fdiv z 146097
  let doe : Int := z - era * 146097
  let yoe : Int := (doe - doe / 1460 + doe / 36524 - doe / 146096) / 365
  let y : Int := yoe + era * 400
  let doy : Int := doe - (365 * yoe + yoe / 4 - yoe / 100)
  let mp : Int := (5 * doy + 2) / 153
  let d : Int := doy - (153 * mp + 2) / 5 + 1
  let m : Int := mp + (if mp < 10 then 3 else -9)
  (if m ≤ 2 then y + 1 else y, m, d)

/-- Zero-pad a (nonnegative) integer to two digits. -/
def pad2 (n : Int) : String :=
  if n < 10 then "0" ++ toString n else toString n

/-- Zero-pad a (nonnegative) integer to four digits. -/
def pad4 (n : Int) : String :=
  if n < 10 then "000" ++ toString n
  else if n < 100 then "00" ++ toString n
  else if n < 1000 then "0" ++ toString n
  else toString n

/-- `YYYY-MM-DD` rendering of a civil date. -/
def formatYMD (y m d : Int) : String :=
  pad4 y ++ "-" ++ pad2 m ++ "-" ++ pad2 d

/-- The first ten characters of `toISOString` applied to a timestamp given in
minutes since the Unix epoch: the UTC calendar date of that instant. -/
def isoDateOfEpochMinutes (t : Int) : String :=
  let day := Int.fdiv t 1440
  let c := civilFromDays day
  formatYMD c.1 c.2.1 c.2.2

/-- The `localDate` string computed by `resolveQuoteId`
(useDailyQuote.ts lines 12-15): `new Date(y, m, d)` builds the timestamp of
local midnight, i.e. `daysFromCivil y m d * 1440 - offMin` minutes since the
epoch, where `offMin` is the device offset in minutes east of UTC
(local time = UTC + `offMin`); `toISOString().slice(0, 10)` then renders the
UTC date of that timestamp. -/
def computedLocalDate (y m d offMin : Int) : String :=
  isoDateOfEpochMinutes (daysFromCivil y m d * 1440 - offMin)

/-- The spec-side value of step 1 of the selector algorithm: the local
calendar date itself, formatted `YYYY-MM-DD`. -/
def localCalendarDate (y m d : Int) : String :=
  formatYMD y m d

/-! ## JavaScript runtime values

`JSVal` models the JavaScript values the selector manipulates; JSON numbers
are modeled as integers (only the integer case arises in the claims).
Field access on an object looks the key up in the field list; field access on
a primitive, `null` or `undefined` yields `undefined` (every plain access in
the embedded code is either behind optional chaining or guarded by a strict
equality that rules out `null`/`undefined`). -/

inductive JSVal where
  | undefined : JSVal
  | null : JSVal
  | bool : Bool → JSVal
  | num : Int → JSVal
  | str : String → JSVal
  | obj : List (String × JSVal) → JSVal
deriving Repr

/-- JavaScript property access `v[k]` (with `undefined` for misses and for
access on non-objects, matching optional chaining as used in the source). -/
def getField (v : JSVal) (k : String) : JSVal :=
  match v with
  | .obj fields =>
      match fields.lookup k with
      | some w => w
      | none => .undefined
  | _ => .undefined

/-- JavaScript `v === s` for a string literal right-hand side: true exactly
when `v` is a string of equal contents. -/
def strictEqStr (v : JSVal) (s : String) : Bool :=
  match v with
  | .str t => t == s
  | _ => false

/-! ## Storage (window.localStorage) -/

/-- What `localStorage.getItem(STORAGE_KEY)` would yield. `absent` covers
both `null` and the empty string (falsy, so `JSON.parse` is skipped);
`corrupt` is a string that is not valid JSON (`JSON.parse` raises);
`val v` is a string that is valid JSON parsing to `v`. -/
inductive Cell where
  | absent : Cell
  | corrupt : Cell
  | val : JSVal → Cell
deriving Repr

/-- The browser storage, including its failure modes: `getThrows` makes the
read side (`localStorage` access / `getItem`) raise; `setThrows` makes
`setItem` raise (e.g. quota exceeded). -/
structure Storage where
  cell : Cell
  getThrows : Bool
  setThrows : Bool
deriving Repr

/-! ## Quotes -/

/-- The closed set of language codes (src/data content model). -/
inductive Language where
  | en | hi | ml | ta | kn | te | bn | ar
deriving DecidableEq, Repr

/-- A quote: an id plus localizable `text` and `source` fields. A localizable
field maps each language to its variant when present (`none` models a key
absent from the underlying JavaScript object). -/
structure Quote where
  id : String
  text : Language → Option String
  source : Language → Option String

/-- Lines 17-25 of useDailyQuote.ts: read and parse the persisted record
inside try/catch. Any raise (reading threw, or the string was not valid
JSON) and the absent/falsy case all leave `stored = null`. -/
def readStored (s : Storage) : JSVal :=
  if s.getThrows then .null
  else
    match s.cell with
    | .absent => .null
    | .corrupt => .null
    | .val v => v

/-- Lines 31-32 of useDailyQuote.ts:
`dailyQuotes[Math.floor(Math.random() * dailyQuotes.length)] ?? dailyQuotes[0]`,
with `k` the computed index. -/
def selectQuote (quotes : List Quote) (k : Nat) : Option Quote :=
  match quotes.get? k with
  | some q => some q
  | none => quotes.head?

/-- The JSON value persisted at lines 35-38:
`JSON.stringify({ date: localDate, quoteId: selection.id })`. -/
def writtenCell (localDate id : String) : JSVal :=
  .obj [("date", .str localDate), ("quoteId", .str id)]

/-! ## The Daily Quote Selector: resolveQuoteId

Embedding of `resolveQuoteId` (useDailyQuote.ts lines 8-43).
Parameters: `hasWindow` is `typeof window !== "undefined"`; `quotes` is the
static `dailyQuotes` array; `localDate` is the string computed at lines
12-15 (see `computedLocalDate`); `s` is the storage; `k` is
`Math.floor(Math.random() * dailyQuotes.length)` (for a nonempty array and
`Math.random() < 1` it satisfies `k < quotes.length`; for the empty array it
is `0` and the lookup misses either way).

The result is `Except Unit (JSVal × Storage)`: `.error ()` is an exception
propagating to the caller, otherwise the returned value (the function is
declared to return a string, but the unvalidated cast at line 21 lets other
values and `undefined` escape) together with the storage afterwards.
A successful `setItem` stores the serialization of
`{ date: localDate, quoteId: selection.id }`; since `JSON.stringify` followed
by `JSON.parse` round-trips this record exactly, the cell is modeled as
holding the parsed value directly. -/
def resolveQuoteId (hasWindow : Bool) (quotes : List Quote) (localDate : String)
    (s : Storage) (k : Nat) : Except Unit (JSVal × Storage) :=
  if !hasWindow then
    .ok (.str (match quotes.head? with | some q => q.id | none => ""), s)
  else
    -- lines 17-25: read and parse inside try/catch
    let stored : JSVal := readStored s
    -- lines 27-29: if (stored?.date === localDate) return stored.quoteId
    if strictEqStr (getField stored "date") localDate then
      .ok (getField stored "quoteId", s)
    else
      -- lines 31-40
      match selectQuote quotes k with
      | some q =>
          -- the setItem call is NOT inside any try/catch
          if s.setThrows then
            .error ()
          else
            .ok (.str q.id, { s with cell := .val (writtenCell localDate q.id) })
      | none => .ok (.str "", s)

/-! ## Localized-field lookup and quote resolution -/

/-- Embedding of `fetchLocalized` (GitaExperience.tsx lines 32-35):
`value[language] ?? value.en`. The same `?? `-pattern is applied to the daily
quote fields at useDailyQuote.ts lines 54-55. -/
def fetchLocalized (value : Language → Option String) (language : Language) :
    Option String :=
  match value language with
  | some s => some s
  | none => value .en

/-- The `found` value of useDailyQuote.ts line 49:
`dailyQuotes.find((item) => item.id === quoteId) ?? dailyQuotes[0]`. -/
def lookupQuote (quotes : List Quote) (quoteId : String) : Option Quote :=
  match quotes.find? (fun item => item.id == quoteId) with
  | some q => some q
  | none => quotes.head?

/-- Embedding of the memoized body of `useDailyQuote`
(useDailyQuote.ts lines 48-57): resolve `quoteId` to a quote and render its
localized `text`/`source` (`some ""` is the literal empty string returned
when the quote set is empty; `none` would be an `undefined` field). -/
def dailyQuoteView (quotes : List Quote) (quoteId : String)
    (language : Language) : Option String × Option String :=
  match lookupQuote quotes quoteId with
  | none => (some "", some "")
  | some found =>
      (fetchLocalized found.text language, fetchLocalized found.source language)

/-! ## The Ambient Drone Synthesizer

Embedding of `useTanpuraDrone` (useTanpuraDrone.ts). The audio context and
the React refs become an explicit `SynthState`; `Math.random()` becomes a
per-invocation source `r : Nat → ℚ` giving voice `i` its draw `r i`. Audio
parameter values are rationals. -/

/-- `DRONE_FREQUENCIES` (useTanpuraDrone.ts line 5). -/
def DRONE_FREQUENCIES : List ℚ := [146.83, 220, 293.66, 220]

/-- One drone voice as configured by the loop at lines 71-91: the primary
oscillator frequency, the modulator (detune) oscillator rate
`0.1 + Math.random() * 0.2`, the modulator gain `freq * spread`, and the
primary gain value at schedule time (set to 0 at line 85 before the ramp).
`oscStopped` records whether `osc.stop`/`modOsc.stop` have already been
scheduled; stopping an already-stopped oscillator raises. -/
structure DroneNode where
  freq : ℚ
  modRate : ℚ
  modGainValue : ℚ
  gainInit : ℚ
  oscStopped : Bool
deriving DecidableEq, Repr

/-- The audio context lifecycle states. -/
inductive CtxState where
  | running | suspended | closed
deriving DecidableEq, Repr

/-- The synthesizer state: whether `contextRef.current` is non-null, the
context state, `nodesRef.current`, and the `isActive` flag. When
`hasCtx = false` the `ctxState` field is immaterial. -/
structure SynthState where
  hasCtx : Bool
  ctxState : CtxState
  nodes : List DroneNode
  isActive : Bool
deriving DecidableEq, Repr

/-- The state before any session was ever started: no audio context, no
voices, `Idle`. -/
def initSynthState : SynthState :=
  { hasCtx := false, ctxState := .running, nodes := [], isActive := false }

/-- The audio-graph operations whose relative order the start procedure
fixes, per voice index: starting the modulator oscillator (line 84),
starting the primary oscillator (line 88), and scheduling the linear gain
ramp to `target` ending `delta` seconds from now (line 89). -/
inductive AudioOp where
  | startMod : Nat → AudioOp
  | startOsc : Nat → AudioOp
  | linearRamp : Nat → ℚ → ℚ → AudioOp
deriving DecidableEq, Repr

/-- The body of the `DRONE_FREQUENCIES.forEach` loop (lines 71-91) for voice
`index` at frequency `freq` with random draw `rand`: the constructed voice
and the ordered operations it performs. -/
def buildVoice (index : Nat) (freq : ℚ) (rand : ℚ) : DroneNode × List AudioOp :=
  let spread : ℚ := if index % 2 = 0 then 0.1 else -0.08
  ({ freq := freq
     modRate := 0.1 + rand * 0.2
     modGainValue := freq * spread
     gainInit := 0
     oscStopped := false },
   [.startMod index, .startOsc index, .linearRamp index 0.08 2])

/-- Embedding of `start` (lines 54-95). `supported` is the conjunction of
the `typeof window` and `AudioContext ?? webkitAudioContext` capability
checks (lines 55-58): when it fails, `start` returns without any state
change. Otherwise the context is lazily created (a fresh context is
`running`), resumed if suspended (best-effort, modeled as succeeding), the
four voices are built, recorded in `nodesRef`, and `isActive` is set.
The returned list is the ordered trace of oscillator starts and gain ramps. -/
def start (supported : Bool) (r : Nat → ℚ) (s : SynthState) :
    SynthState × List AudioOp :=
  if !supported then (s, [])
  else
    let s1 := if s.hasCtx then s else { s with hasCtx := true, ctxState := .running }
    let s2 := if s1.ctxState = .suspended then { s1 with ctxState := .running } else s1
    let built := (DRONE_FREQUENCIES.enum).map (fun p => buildVoice p.1 p.2 (r p.1))
    ({ s2 with nodes := built.map Prod.fst, isActive := true },
     (built.map Prod.snd).flatten)

/-- The try-block of the per-voice teardown (lines 34-38): the gain ramps
never raise; `osc.stop`/`modOsc.stop` raise `InvalidStateError` when the
oscillator was already stopped. -/
def stopVoiceBody (v : DroneNode) : Except Unit Unit :=
  if v.oscStopped then .error () else .ok ()

/-- The `forEach` of `stop` over the active voices (lines 33-46): each
voice's try-block runs with its exception caught and ignored (lines 39-41),
so the iteration itself never propagates an exception. -/
def stopVoices (nodes : List DroneNode) : Except Unit Unit :=
  match nodes with
  | [] => .ok ()
  | v :: rest =>
      match stopVoiceBody v with
      | .ok _ => stopVoices rest
      | .error _ => stopVoices rest   -- catch: ignore already stopped nodes

/-- The context transition of `stop` (lines 48-50): suspend when a context
exists (a rejected suspend on a closed context is swallowed, leaving it
closed); no-op when no context was ever created. -/
def suspendCtx (s : SynthState) : SynthState :=
  if s.hasCtx then
    if s.ctxState = .closed then s else { s with ctxState := .suspended }
  else s

/-- The state after `stop`: voices cleared, context suspended (best-effort),
`Idle`. -/
def stoppedState (s : SynthState) : SynthState :=
  { suspendCtx s with nodes := [], isActive := false }

/-- Embedding of `stop` (lines 30-52). The result is `Except` to make the
exception behavior part of the model: an uncaught exception in the voice
loop would surface as `.error`, but every voice exception is caught. -/
def stop (s : SynthState) : Except Unit SynthState :=
  match stopVoices s.nodes with
  | .error e => .error e
  | .ok _ => .ok (stoppedState s)

/-- Embedding of `toggle` (lines 97-103): dispatch on `isActive`. -/
def toggle (supported : Bool) (r : Nat → ℚ) (s : SynthState) :
    Except Unit SynthState :=
  if s.isActive then stop s else .ok (start supported r s).fst

/-- A sequence of `toggle` invocations, each with its own random source. -/
def applyToggles (supported : Bool) (rs : List (Nat → ℚ)) (s : SynthState) :
    Except Unit SynthState :=
  match rs with
  | [] => .ok s
  | r :: rest =>
      match toggle supported r s with
      | .error e => .error e
      | .ok s1 => applyToggles supported rest s1

/-! ## Concrete fixtures used by the claims -/

/-- A one-element quote set used as concrete input. -/
def exQuote : Quote :=
  { id := "q1", text := fun _ => none, source := fun _ => none }

/-- A voice whose oscillators have already been stopped: scheduling a
further stop on it raises `InvalidStateError`. -/
def exStoppedVoice : DroneNode :=
  { freq := 220, modRate := 0.2, modGainValue := 22, gainInit := 0,
    oscStopped := true }

/-! ## Helper lemmas -/

lemma stopVoices_ok (nodes : List DroneNode) : stopVoices nodes = .ok () := by
  induction nodes with
  | nil => rfl
  | cons v rest ih =>
      simp only [stopVoices]
      rcases stopVoiceBody v with _ | _ <;> exact ih

lemma stop_eq (s : SynthState) : stop s = .ok (stoppedState s) := by
  simp [stop, stopVoices_ok]

lemma stoppedState_idem (s : SynthState) :
    stoppedState (stoppedState s) = stoppedState s := by
  obtain ⟨h, c, n, a⟩ := s
  cases h <;> cases c <;> simp [stoppedState, suspendCtx]

lemma start_shape (r : Nat → ℚ) (s : SynthState) :
    (start true r s).fst.isActive = true
    ∧ (start true r s).fst.nodes.length = 4 := by
  simp [start, DRONE_FREQUENCIES, List.enum, buildVoice]

lemma toggle_step (r : Nat → ℚ) (s : SynthState) :
    ∃ s1, toggle true r s = .ok s1
      ∧ s1.nodes.length = (if s1.isActive then 4 else 0) := by
  by_cases ha : s.isActive
  · exact ⟨stoppedState s, by simp [toggle, ha, stop_eq], by simp [stoppedState]⟩
  · refine ⟨(start true r s).fst, by simp [toggle, ha], ?_⟩
    have hs := start_shape r s
    rw [hs.1, hs.2]
    rfl

lemma applyToggles_inv (rs : List (Nat → ℚ)) (s : SynthState)
    (h : s.nodes.length = if s.isActive then 4 else 0) :
    ∃ s1, applyToggles true rs s = .ok s1
      ∧ s1.nodes.length = (if s1.isActive then 4 else 0) := by
  induction rs generalizing s with
  | nil => exact ⟨s, rfl, h⟩
  | cons r rest ih =>
      obtain ⟨s1, h1, hinv⟩ := toggle_step r s
      obtain ⟨s2, h2, hinv2⟩ := ih s1 hinv
      exact ⟨s2, by simp [applyToggles, h1, h2], hinv2⟩

lemma modRate_bounds (x : ℚ) (h0 : 0 ≤ x) (h1 : x < 1) :
    (0.1 : ℚ) ≤ 0.1 + x * 0.2 ∧ (0.1 : ℚ) + x * 0.2 < 0.3 := by
  constructor <;> nlinarith

lemma start_nodes_eq (s : SynthState) (r : Nat → ℚ) :
    (start true r s).fst.nodes =
      [ { freq := 146.83, modRate := 0.1 + r 0 * 0.2, modGainValue := 146.83 * 0.1,
          gainInit := 0, oscStopped := false },
        { freq := 220, modRate := 0.1 + r 1 * 0.2, modGainValue := 220 * (-0.08),
          gainInit := 0, oscStopped := false },
        { freq := 293.66, modRate := 0.1 + r 2 * 0.2, modGainValue := 293.66 * 0.1,
          gainInit := 0, oscStopped := false },
        { freq := 220, modRate := 0.1 + r 3 * 0.2, modGainValue := 220 * (-0.08),
          gainInit := 0, oscStopped := false } ] := by
  simp [start, DRONE_FREQUENCIES, List.enum, buildVoice]

lemma start_ops_eq (s : SynthState) (r : Nat → ℚ) :
    (start true r s).snd =
      [ AudioOp.startMod 0, AudioOp.startOsc 0, AudioOp.linearRamp 0 0.08 2,
        AudioOp.startMod 1, AudioOp.startOsc 1, AudioOp.linearRamp 1 0.08 2,
        AudioOp.startMod 2, AudioOp.startOsc 2, AudioOp.linearRamp 2 0.08 2,
        AudioOp.startMod 3, AudioOp.startOsc 3, AudioOp.linearRamp 3 0.08 2 ] := by
  simp [start, DRONE_FREQUENCIES, List.enum, buildVoice]

/-! ## Theorems -/

/-- Claim C1: the `today` value compared against and written into the
persisted record is claimed to be the local calendar date formatted
`YYYY-MM-DD` for every timezone offset. This fails: on a device at UTC+05:30
(offset +330 minutes), e.g. local date 2024-01-15, the value computed by
lines 12-15 is the ISO (UTC) date of local midnight, which is the previous
day `2024-01-14`, not the local calendar date `2024-01-15`. -/
theorem computedLocalDate_offset_bug :
    computedLocalDate 2024 1 15 330 = "2024-01-14"
    ∧ localCalendarDate 2024 1 15 = "2024-01-15"
    ∧ computedLocalDate 2024 1 15 330 ≠ localCalendarDate 2024 1 15 := by
  refine ⟨by decide, by decide, by decide⟩

/-- Claim C2: the selector is claimed never to throw, degrading to a fresh
random quote when persistence fails. This fails: the `setItem` call at
lines 34-40 is outside every try/catch, so with storage whose write side
raises (quota exceeded) and no record for today, the exception propagates to
the caller. -/
theorem resolveQuoteId_setItem_throw_propagates :
    resolveQuoteId true [exQuote] "2024-01-15"
      { cell := .absent, getThrows := false, setThrows := true } 0
      = .error () := rfl

/-- Claim C3: every malformed persisted record is claimed to be treated as
absent (new quote selected and persisted). This fails: `JSON.parse` at
line 21 is followed by an unvalidated type cast, so the persisted record
`{"date": "2024-01-15", "quoteId": 42}` with a mistyped `quoteId` field is
trusted once its `date` matches today: the number 42 is returned as the
quote id and nothing fresh is selected or persisted — unlike the absent
case, which selects `q1` and persists a new record. -/
theorem resolveQuoteId_mistyped_record_trusted :
    (resolveQuoteId true [exQuote] "2024-01-15"
       { cell := .val (.obj [("date", .str "2024-01-15"), ("quoteId", .num 42)]),
         getThrows := false, setThrows := false } 0
      = .ok (.num 42,
         { cell := .val (.obj [("date", .str "2024-01-15"), ("quoteId", .num 42)]),
           getThrows := false, setThrows := false }))
    ∧ (resolveQuoteId true [exQuote] "2024-01-15"
       { cell := .absent, getThrows := false, setThrows := false } 0
      = .ok (.str "q1",
         { cell := .val (.obj [("date", .str "2024-01-15"), ("quoteId", .str "q1")]),
           getThrows := false, setThrows := false }))
    ∧ JSVal.num 42 ≠ JSVal.str "q1" :=
  ⟨rfl, rfl, fun h => nomatch h⟩

/-- Claim C7: quote resolution is total with a two-level fallback: an
existing id resolves to its quote, a stale id falls back to the first quote
of a nonempty set, and the empty set yields empty text and source. -/
theorem dailyQuoteView_two_level_fallback (quotes : List Quote) (qid : String)
    (l : Language) :
    match quotes.find? (fun item => item.id == qid), quotes with
    | some q, _ =>
        dailyQuoteView quotes qid l
          = (fetchLocalized q.text l, fetchLocalized q.source l)
    | none, first :: _ =>
        dailyQuoteView quotes qid l
          = (fetchLocalized first.text l, fetchLocalized first.source l)
    | none, [] => dailyQuoteView quotes qid l = (some "", some "") := by
  rcases hf : quotes.find? (fun item => item.id == qid) with _ | q
  · rcases quotes with _ | ⟨a, t⟩ <;>
      simp [dailyQuoteView, lookupQuote, hf]
  · simp [dailyQuoteView, lookupQuote, hf]

/-- Claim C8: `fetchLocalized` returns the mapping's value for the requested
language when present and the English value otherwise; the daily quote's
text and source are rendered with exactly this fallback rule. -/
theorem fetchLocalized_english_fallback (f : Language → Option String)
    (l : Language) (quotes : List Quote) (qid : String) :
    (match f l with
     | some s => fetchLocalized f l = some s
     | none => fetchLocalized f l = f .en)
    ∧ (match lookupQuote quotes qid with
       | some q =>
           dailyQuoteView quotes qid l
             = (fetchLocalized q.text l, fetchLocalized q.source l)
       | none => dailyQuoteView quotes qid l = (some "", some "")) := by
  constructor
  · rcases h : f l with _ | s <;> simp [fetchLocalized, h]
  · rcases h : lookupQuote quotes qid with _ | q <;> simp [dailyQuoteView, h]

/-- Claim C4: with a nonempty quote set, working storage and no intervening
manipulation of persisted state, two invocations on the same local calendar
day return the same quote id: the first call either reuses a record already
dated today or persists a fresh record `{date: today, quoteId}`, and the
second call reads that record back and returns the same id with the storage
unchanged. -/
theorem resolveQuoteId_same_day_idempotent (quotes : List Quote)
    (localDate : String) (s0 : Storage) (k k2 : Nat)
    (hget : s0.getThrows = false) (hset : s0.setThrows = false)
    (hne : quotes ≠ []) :
    ∃ r s1, resolveQuoteId true quotes localDate s0 k = .ok (r, s1)
      ∧ resolveQuoteId true quotes localDate s1 k2 = .ok (r, s1) := by
  by_cases hd : strictEqStr (getField (readStored s0) "date") localDate
  · exact ⟨getField (readStored s0) "quoteId", s0,
      by simp [resolveQuoteId, hd], by simp [resolveQuoteId, hd]⟩
  · obtain ⟨q, hq⟩ : ∃ q, selectQuote quotes k = some q := by
      rcases quotes with _ | ⟨a, t⟩
      · exact absurd rfl hne
      · rcases hgk : (a :: t)[k]? with _ | q
        · exact ⟨a, by simp [selectQuote, List.get?_eq_getElem?, hgk]⟩
        · exact ⟨q, by simp [selectQuote, List.get?_eq_getElem?, hgk]⟩
    refine ⟨.str q.id, { s0 with cell := .val (writtenCell localDate q.id) }, ?_, ?_⟩
    · simp [resolveQuoteId, hd, hq, hset]
    · simp [resolveQuoteId, readStored, hget, writtenCell, getField, strictEqStr,
        List.lookup]

/-- Witness for claim C4 at the concrete input: quote set `[q1]`, date
2024-01-15, absent record, working storage, draw 0. -/
theorem resolveQuoteId_same_day_idempotent_witness :
    ((⟨Cell.absent, false, false⟩ : Storage).getThrows = false
      ∧ (⟨Cell.absent, false, false⟩ : Storage).setThrows = false
      ∧ ([exQuote] : List Quote) ≠ [])
    ∧ ∃ r s1,
        resolveQuoteId true [exQuote] "2024-01-15"
          ⟨Cell.absent, false, false⟩ 0 = .ok (r, s1)
        ∧ resolveQuoteId true [exQuote] "2024-01-15" s1 0 = .ok (r, s1) :=
  ⟨⟨rfl, rfl, fun h => nomatch h⟩,
   resolveQuoteId_same_day_idempotent [exQuote] "2024-01-15"
     ⟨Cell.absent, false, false⟩ 0 0 rfl rfl (fun h => nomatch h)⟩

/-- Claim C10: with no window (server-side rendering), the selector
deterministically returns the first quote's id (empty string for an empty
set), leaves storage untouched, and is independent of the random draw. -/
theorem resolveQuoteId_ssr_deterministic (quotes : List Quote)
    (localDate : String) (s : Storage) (k k2 : Nat) :
    resolveQuoteId false quotes localDate s k
      = .ok (.str (match quotes.head? with | some q => q.id | none => ""), s)
    ∧ resolveQuoteId false quotes localDate s k
      = resolveQuoteId false quotes localDate s k2 :=
  ⟨rfl, rfl⟩

/-- Claim C5: `toggle()` from `Idle` lands in `Sounding` with exactly 4
active voices; a further `toggle()` lands back in `Idle` with 0 voices; and
after every sequence of `toggle()` calls (each with its own random draws)
the active-voice count is 0 exactly in `Idle` and 4 exactly in `Sounding`. -/
theorem toggle_voice_count_invariant (r1 r2 : Nat → ℚ) (rs : List (Nat → ℚ)) :
    (∃ s1, toggle true r1 initSynthState = .ok s1 ∧ s1.isActive = true
       ∧ s1.nodes.length = 4
       ∧ ∃ s2, toggle true r2 s1 = .ok s2 ∧ s2.isActive = false
           ∧ s2.nodes.length = 0)
    ∧ ∃ s, applyToggles true rs initSynthState = .ok s
        ∧ s.nodes.length = (if s.isActive then 4 else 0) := by
  constructor
  · refine ⟨(start true r1 initSynthState).fst, by simp [toggle, initSynthState],
      (start_shape r1 initSynthState).1, (start_shape r1 initSynthState).2,
      stoppedState (start true r1 initSynthState).fst, ?_, rfl, rfl⟩
    simp [toggle, (start_shape r1 initSynthState).1, stop_eq]
  · exact applyToggles_inv rs initSynthState rfl

/-- Claim C6: `stop()` never raises and always lands in `Idle` with an empty
voice list, in every state: on an arbitrary state, on the state it itself
produces (idempotence), and on the state before any session was ever started
(no audio context). A voice whose oscillators were already stopped raises
inside the teardown loop, and that exception is caught: `stop` still
returns normally. -/
theorem stop_idempotent_safe (s : SynthState) :
    stop s = .ok (stoppedState s)
    ∧ (stoppedState s).isActive = false
    ∧ (stoppedState s).nodes = []
    ∧ stop (stoppedState s) = .ok (stoppedState s)
    ∧ stop initSynthState = .ok initSynthState
    ∧ stopVoiceBody exStoppedVoice = .error ()
    ∧ stop { hasCtx := true, ctxState := .running,
             nodes := [exStoppedVoice], isActive := true }
        = .ok { hasCtx := true, ctxState := .suspended,
                nodes := [], isActive := false } := by
  refine ⟨stop_eq s, rfl, rfl, ?_, rfl, rfl, rfl⟩
  rw [stop_eq, stoppedState_idem]

/-- Claim C9: a drone session consists of exactly 4 voices at base
frequencies 146.83, 220, 293.66 and 220 Hz; voice `i` has modulator rate in
[0.1, 0.3) Hz and modulator gain `frequency * spread` with spread +0.1 for
even `i` and -0.08 for odd `i`; and each primary gain starts at 0 and is
ramped linearly to 0.08 ending 2 seconds from now, scheduled after that
voice's oscillators are started. -/
theorem start_session_parameters (s : SynthState) (r : Nat → ℚ)
    (h : ∀ i, 0 ≤ r i ∧ r i < 1) :
    (start true r s).fst.nodes.map DroneNode.freq = [146.83, 220, 293.66, 220]
    ∧ (start true r s).fst.nodes.length = 4
    ∧ (∀ i v, ((start true r s).fst.nodes)[i]? = some v →
        ((0.1 : ℚ) ≤ v.modRate ∧ v.modRate < (0.3 : ℚ))
        ∧ v.modGainValue = v.freq * (if i % 2 = 0 then (0.1 : ℚ) else (-0.08 : ℚ))
        ∧ v.gainInit = 0)
    ∧ (∀ i, i < 4 → ∃ j l : Nat, j < l
        ∧ ((start true r s).snd)[j]? = some (AudioOp.startOsc i)
        ∧ ((start true r s).snd)[l]? = some (AudioOp.linearRamp i 0.08 2)) := by
  refine ⟨?_, ?_, ?_, ?_⟩
  · rw [start_nodes_eq]
    norm_num
  · rw [start_nodes_eq]
    rfl
  · intro i v hv
    rw [start_nodes_eq] at hv
    match i, hv with
    | 0, hv =>
        rw [show ∀ a b c d : DroneNode, ([a,b,c,d])[0]? = some a
            from fun _ _ _ _ => rfl] at hv
        cases Option.some.inj hv
        exact ⟨modRate_bounds _ (h 0).1 (h 0).2, by norm_num, rfl⟩
    | 1, hv =>
        rw [show ∀ a b c d : DroneNode, ([a,b,c,d])[1]? = some b
            from fun _ _ _ _ => rfl] at hv
        cases Option.some.inj hv
        exact ⟨modRate_bounds _ (h 1).1 (h 1).2, by norm_num, rfl⟩
    | 2, hv =>
        rw [show ∀ a b c d : DroneNode, ([a,b,c,d])[2]? = some c
            from fun _ _ _ _ => rfl] at hv
        cases Option.some.inj hv
        exact ⟨modRate_bounds _ (h 2).1 (h 2).2, by norm_num, rfl⟩
    | 3, hv =>
        rw [show ∀ a b c d : DroneNode, ([a,b,c,d])[3]? = some d
            from fun _ _ _ _ => rfl] at hv
        cases Option.some.inj hv
        exact ⟨modRate_bounds _ (h 3).1 (h 3).2, by norm_num, rfl⟩
    | n + 4, hv =>
        rw [show ∀ a b c d : DroneNode, ([a,b,c,d])[n+4]? = none
            from fun _ _ _ _ => rfl] at hv
        exact absurd hv (fun hx => nomatch hx)
  · intro i hi
    simp only [start_ops_eq]
    interval_cases i
    · exact ⟨1, 2, by norm_num, rfl, rfl⟩
    · exact ⟨4, 5, by norm_num, rfl, rfl⟩
    · exact ⟨7, 8, by norm_num, rfl, rfl⟩
    · exact ⟨10, 11, by norm_num, rfl, rfl⟩

/-- Witness for claim C9 at the concrete input: the state before any session
and the random source drawing 0 for every voice. -/
theorem start_session_parameters_witness :
    (∀ i : Nat, 0 ≤ (fun _ : Nat => (0 : ℚ)) i ∧ (fun _ : Nat => (0 : ℚ)) i < 1)
    ∧ ((start true (fun _ : Nat => (0 : ℚ)) initSynthState).fst.nodes.map
          DroneNode.freq = [146.83, 220, 293.66, 220]
      ∧ (start true (fun _ : Nat => (0 : ℚ)) initSynthState).fst.nodes.length = 4
      ∧ (∀ i v,
          ((start true (fun _ : Nat => (0 : ℚ)) initSynthState).fst.nodes)[i]?
              = some v →
          ((0.1 : ℚ) ≤ v.modRate ∧ v.modRate < (0.3 : ℚ))
          ∧ v.modGainValue
              = v.freq * (if i % 2 = 0 then (0.1 : ℚ) else (-0.08 : ℚ))
          ∧ v.gainInit = 0)
      ∧ (∀ i, i < 4 → ∃ j l : Nat, j < l
          ∧ ((start true (fun _ : Nat => (0 : ℚ)) initSynthState).snd)[j]?
              = some (AudioOp.startOsc i)
          ∧ ((start true (fun _ : Nat => (0 : ℚ)) initSynthState).snd)[l]?
              = some (AudioOp.linearRamp i 0.08 2))) :=
  ⟨fun _ => ⟨le_refl 0, by norm_num⟩,
   start_session_parameters initSynthState (fun _ => (0 : ℚ))
     (fun _ => ⟨le_refl 0, by norm_num⟩)⟩

end Gita
